import Mathlib

/-!
Shallow embedding of the `optillm` HTTP gateway (`optillm.py`).

The gateway exposes `POST /v1/chat/completions`; the handler `proxy`
decodes the request payload, resolves an inference strategy (with an
"auto" convention that encodes the strategy name as the prefix of the
model field before the first hyphen), invokes the strategy through a
try/except error boundary, and assembles an OpenAI-style response.

Python values are modelled as follows: JSON payload keys that may be
absent become `Option`; the reasoning strategies (external modules
`mcts`, `bon`, …) are abstract functions returning
`Except String StrategyResult` (a raised exception becomes `.error`
carrying `str(e)`); an exception that propagates out of the handler
(raised outside the try/except) becomes `HandlerResult.uncaught`.
The mutable `server_config` dict is threaded through the handler
explicitly so that (absence of) mutation is visible in the embedding.
-/

/-- One element of the `messages` array: `{"role": ..., "content": ...}`. -/
structure Message where
  role : String
  content : String
  deriving Repr, DecidableEq

/-- The decoded JSON body of a chat-completion request.  Keys that the
handler reads with `data.get(key, default)` are `Option`s here (`none`
models an absent key). -/
structure ChatRequest where
  messages : Option (List Message)
  model : Option String
  n : Option Nat
  deriving Repr, DecidableEq

/-- The `server_config` dict as it stands when the server is running:
`main()` always executes `server_config.update({...})` (setting every
key below, including `base_url` and `return_full_response`) before
`app.run`, so every served request sees a dict with all these keys. -/
structure ServerConfig where
  approach : String
  mcts_simulations : Nat
  mcts_exploration : Rat
  mcts_depth : Nat
  best_of_n : Nat
  model : String
  rstar_max_depth : Nat
  rstar_num_rollouts : Nat
  rstar_c : Rat
  n : Nat
  base_url : String
  return_full_response : Bool
  deriving Repr, DecidableEq

/-- A backend client (`OpenAI(...)` instance): the credential it was
constructed with and its optional `base_url` binding. -/
structure Client where
  api_key : Option String
  base_url : Option String
  deriving Repr, DecidableEq

/-- `default_client = OpenAI(api_key=API_KEY)`: bound to the credential
read from the environment at startup, no base-url override. -/
def defaultClient (apiKey : Option String) : Client :=
  { api_key := apiKey, base_url := none }

/-- Lines 60–63: `if base_url != "": client = OpenAI(api_key=API_KEY,
base_url=base_url) else: client = default_client`. -/
def selectClient (apiKey : Option String) (base_url : String) : Client :=
  if base_url ≠ "" then { api_key := apiKey, base_url := some base_url }
  else defaultClient apiKey

/-- What a strategy returns: Python's `final_response` is either a plain
string or a list of strings (`isinstance(final_response, list)`). -/
inductive StrategyResult where
  | single : String → StrategyResult
  | many : List String → StrategyResult
  deriving Repr, DecidableEq

/-- The external strategy modules imported at the top of `optillm.py`,
abstracted to their call signatures as used inside `proxy`.  Each
returns `.error msg` when the Python call raises an exception whose
`str` is `msg` (caught by the handler's `except Exception`). -/
structure Strategies where
  chat_with_mcts : String → String → Client → String → Nat → Rat → Nat → Except String StrategyResult
  best_of_n_sampling : String → String → Client → String → Nat → Except String StrategyResult
  mixture_of_agents : String → String → Client → String → Except String StrategyResult
  round_trip_optimization : String → String → Client → String → Except String StrategyResult
  z3_process_query : String → Client → String → String → Except String StrategyResult
  advanced_self_consistency_approach : String → String → Client → String → Except String StrategyResult
  inference_time_pv_game : String → String → Client → String → Except String StrategyResult
  rstar_solve : String → Client → String → Nat → Nat → Rat → String → Except String StrategyResult
  cot_reflection : String → String → Client → String → Bool → Except String StrategyResult
  plansearch : String → String → Client → String → Nat → Except String StrategyResult

/-- An exception raised outside the try/except block of `proxy`. -/
inductive Exc where
  | indexError : Exc
  deriving Repr, DecidableEq

/-- One element of `response_data['choices']`. -/
structure Choice where
  index : Nat
  role : String
  content : String
  finish_reason : String
  deriving Repr, DecidableEq

/-- The `response_data` dict of a successful request. -/
structure ChatResponse where
  model : String
  choices : List Choice
  deriving Repr, DecidableEq

/-- The JSON body the handler returns: `jsonify(response_data)` on
success, `jsonify({"error": str(e)})` on a caught exception. -/
inductive Body where
  | success : ChatResponse → Body
  | error : String → Body
  deriving Repr, DecidableEq

/-- What one call of the Flask handler produces: either a response
(status code and JSON body) returned by the handler itself, or an
exception that escaped the handler uncaught. -/
inductive HandlerResult where
  | response : Nat → Body → HandlerResult
  | uncaught : Exc → HandlerResult
  deriving Repr, DecidableEq

/-- Auxiliary for `split1`: find the first `-` in a character list and
split there, or `none` when the list has no `-`. -/
def splitFirstHyphen : List Char → Option (List Char × List Char)
  | [] => none
  | c :: cs =>
    if c = '-' then some ([], cs)
    else match splitFirstHyphen cs with
      | some (pre, post) => some (c :: pre, post)
      | none => none

/-- Line 66, `model.split('-', 1)`: split at the first `-` only.  Python
returns a one-element list (no `-` present, modelled `(s, none)`) or a
two-element list `[before, after]` (modelled `(before, some after)`). -/
def split1 (s : String) : String × Option String :=
  match splitFirstHyphen s.data with
  | some (pre, post) => (⟨pre⟩, some ⟨post⟩)
  | none => (s, none)

/-- Lines 65–68: the auto convention.  `parts[1]` raises `IndexError`
when the split produced a single part (no `-` in the model string). -/
def resolve (approach model : String) : Except Exc (String × String) :=
  if approach = "auto" then
    match split1 model with
    | (pre, some post) => .ok (pre, post)
    | (_, none) => .error .indexError
  else .ok (approach, model)

/-- Line 50: `messages = data.get('messages', [])`. -/
def getMessages (data : ChatRequest) : List Message :=
  data.messages.getD []

/-- Line 51: `model = data.get('model', server_config['model'])`. -/
def requestModel (cfg : ServerConfig) (data : ChatRequest) : String :=
  data.model.getD cfg.model

/-- Line 52: `n = data.get('n', server_config['n'])`. -/
def requestN (cfg : ServerConfig) (data : ChatRequest) : Nat :=
  data.n.getD cfg.n

/-- Line 54: content of the first message with role `"system"`, or `""`. -/
def systemPrompt (messages : List Message) : String :=
  ((messages.find? fun msg => msg.role = "system").map Message.content).getD ""

/-- Line 55: content of the first message with role `"user"`, or `""`. -/
def initialQuery (messages : List Message) : String :=
  ((messages.find? fun msg => msg.role = "user").map Message.content).getD ""

/-- The strategy names the dispatch chain of lines 73–97 recognizes
(the strategy registry). -/
def knownApproaches : List String :=
  ["mcts", "bon", "moa", "rto", "z3", "self_consistency", "pvg", "rstar",
   "cot_reflection", "plansearch"]

/-- Lines 73–99, the body of the `try` block: dispatch on the approach
name, calling the strategy with its parameter slice of `server_config`,
or raise `ValueError(f"Unknown approach: \x7bapproach\x7d")`. -/
def dispatch (cfg : ServerConfig) (strats : Strategies) (approach : String)
    (system_prompt initial_query : String) (client : Client) (model : String)
    (n : Nat) : Except String StrategyResult :=
  if approach = "mcts" then
    strats.chat_with_mcts system_prompt initial_query client model
      cfg.mcts_simulations cfg.mcts_exploration cfg.mcts_depth
  else if approach = "bon" then
    strats.best_of_n_sampling system_prompt initial_query client model cfg.best_of_n
  else if approach = "moa" then
    strats.mixture_of_agents system_prompt initial_query client model
  else if approach = "rto" then
    strats.round_trip_optimization system_prompt initial_query client model
  else if approach = "z3" then
    strats.z3_process_query system_prompt client model initial_query
  else if approach = "self_consistency" then
    strats.advanced_self_consistency_approach system_prompt initial_query client model
  else if approach = "pvg" then
    strats.inference_time_pv_game system_prompt initial_query client model
  else if approach = "rstar" then
    strats.rstar_solve system_prompt client model
      cfg.rstar_max_depth cfg.rstar_num_rollouts cfg.rstar_c initial_query
  else if approach = "cot_reflection" then
    strats.cot_reflection system_prompt initial_query client model cfg.return_full_response
  else if approach = "plansearch" then
    strats.plansearch system_prompt initial_query client model n
  else
    .error ("Unknown approach: " ++ approach)

/-- Lines 104–127: build `response_data` from the model string and the
strategy result (`enumerate` over a list result, a single choice at
index 0 otherwise). -/
def assemble (model : String) (final_response : StrategyResult) : ChatResponse :=
  match final_response with
  | .many rs =>
    { model := model,
      choices := rs.enum.map fun p =>
        { index := p.1, role := "assistant", content := p.2, finish_reason := "stop" } }
  | .single s =>
    { model := model,
      choices := [{ index := 0, role := "assistant", content := s, finish_reason := "stop" }] }

/-- Lines 44–130, the request handler `proxy`.  The `server_config`
dict is threaded through and returned so that any mutation of it would
show in the result; the handler only ever reads it. -/
def proxy (cfg : ServerConfig) (apiKey : Option String) (strats : Strategies)
    (data : ChatRequest) : HandlerResult × ServerConfig :=
  match resolve cfg.approach (requestModel cfg data) with
  | .error e => (.uncaught e, cfg)
  | .ok (approach, model) =>
    match dispatch cfg strats approach (systemPrompt (getMessages data))
        (initialQuery (getMessages data)) (selectClient apiKey cfg.base_url)
        model (requestN cfg data) with
    | .error e => (.response 500 (.error e), cfg)
    | .ok final_response => (.response 200 (.success (assemble model final_response)), cfg)

/-- Concrete strategy pack for evaluating the handler on closed inputs:
every strategy succeeds with the single completion "ok". -/
def stratsStub : Strategies where
  chat_with_mcts := fun _ _ _ _ _ _ _ => .ok (.single "ok")
  best_of_n_sampling := fun _ _ _ _ _ => .ok (.single "ok")
  mixture_of_agents := fun _ _ _ _ => .ok (.single "ok")
  round_trip_optimization := fun _ _ _ _ => .ok (.single "ok")
  z3_process_query := fun _ _ _ _ => .ok (.single "ok")
  advanced_self_consistency_approach := fun _ _ _ _ => .ok (.single "ok")
  inference_time_pv_game := fun _ _ _ _ => .ok (.single "ok")
  rstar_solve := fun _ _ _ _ _ _ _ => .ok (.single "ok")
  cot_reflection := fun _ _ _ _ _ => .ok (.single "ok")
  plansearch := fun _ _ _ _ _ => .ok (.single "ok")

/-- The `server_config` dict with the values `main()` installs when the
process is started with no command-line arguments (argparse defaults,
lines 134–146 and 149–162). -/
def cfgBase : ServerConfig where
  approach := "auto"
  mcts_simulations := 2
  mcts_exploration := 1/5
  mcts_depth := 1
  best_of_n := 3
  model := "gpt-4o-mini"
  rstar_max_depth := 3
  rstar_num_rollouts := 5
  rstar_c := 7/5
  n := 1
  base_url := ""
  return_full_response := false

/-- Two strategy packs agree at a given client: every one of the ten
strategies returns the same result whenever it is called with that
client, whatever its other arguments.  Used to state that the handler
invokes the strategies only with the per-request selected client. -/
def StratsAgreeAt (client : Client) (s t : Strategies) : Prop :=
  (∀ sp iq m sims expl depth,
    s.chat_with_mcts sp iq client m sims expl depth
      = t.chat_with_mcts sp iq client m sims expl depth) ∧
  (∀ sp iq m bn, s.best_of_n_sampling sp iq client m bn
      = t.best_of_n_sampling sp iq client m bn) ∧
  (∀ sp iq m, s.mixture_of_agents sp iq client m
      = t.mixture_of_agents sp iq client m) ∧
  (∀ sp iq m, s.round_trip_optimization sp iq client m
      = t.round_trip_optimization sp iq client m) ∧
  (∀ sp m q, s.z3_process_query sp client m q
      = t.z3_process_query sp client m q) ∧
  (∀ sp iq m, s.advanced_self_consistency_approach sp iq client m
      = t.advanced_self_consistency_approach sp iq client m) ∧
  (∀ sp iq m, s.inference_time_pv_game sp iq client m
      = t.inference_time_pv_game sp iq client m) ∧
  (∀ sp m d nr c q, s.rstar_solve sp client m d nr c q
      = t.rstar_solve sp client m d nr c q) ∧
  (∀ sp iq m b, s.cot_reflection sp iq client m b
      = t.cot_reflection sp iq client m b) ∧
  (∀ sp iq m nn, s.plansearch sp iq client m nn
      = t.plansearch sp iq client m nn)

/-- A strategy pack that behaves like `stratsStub` on clients carrying
a base-url binding and fails on every other client: it agrees with
`stratsStub` at an endpoint-bound client while being a genuinely
different pack elsewhere (used to exercise `StratsAgreeAt`). -/
def stratsProbe : Strategies where
  chat_with_mcts := fun sp iq c m sims expl depth =>
    if c.base_url.isSome then stratsStub.chat_with_mcts sp iq c m sims expl depth
    else .error "wrong client"
  best_of_n_sampling := fun sp iq c m bn =>
    if c.base_url.isSome then stratsStub.best_of_n_sampling sp iq c m bn
    else .error "wrong client"
  mixture_of_agents := fun sp iq c m =>
    if c.base_url.isSome then stratsStub.mixture_of_agents sp iq c m
    else .error "wrong client"
  round_trip_optimization := fun sp iq c m =>
    if c.base_url.isSome then stratsStub.round_trip_optimization sp iq c m
    else .error "wrong client"
  z3_process_query := fun sp c m q =>
    if c.base_url.isSome then stratsStub.z3_process_query sp c m q
    else .error "wrong client"
  advanced_self_consistency_approach := fun sp iq c m =>
    if c.base_url.isSome then stratsStub.advanced_self_consistency_approach sp iq c m
    else .error "wrong client"
  inference_time_pv_game := fun sp iq c m =>
    if c.base_url.isSome then stratsStub.inference_time_pv_game sp iq c m
    else .error "wrong client"
  rstar_solve := fun sp c m d nr cc q =>
    if c.base_url.isSome then stratsStub.rstar_solve sp c m d nr cc q
    else .error "wrong client"
  cot_reflection := fun sp iq c m b =>
    if c.base_url.isSome then stratsStub.cot_reflection sp iq c m b
    else .error "wrong client"
  plansearch := fun sp iq c m nn =>
    if c.base_url.isSome then stratsStub.plansearch sp iq c m nn
    else .error "wrong client"

/-- `cfgBase` with a non-auto approach and a base-url override set, as
`main()` would install for `--approach bon --base_url http://localhost:1234`. -/
def cfgW9 : ServerConfig :=
  { cfgBase with approach := "bon", base_url := "http://localhost:1234" }

theorem splitFirstHyphen_append (pre post : List Char) (h : '-' ∉ pre) :
    splitFirstHyphen (pre ++ '-' :: post) = some (pre, post) := by
  induction pre with
  | nil => simp [splitFirstHyphen]
  | cons c cs ih =>
    have hc : c ≠ '-' := fun he => h (he ▸ List.mem_cons_self c cs)
    have hcs : '-' ∉ cs := fun hm => h (List.mem_cons_of_mem _ hm)
    simp [splitFirstHyphen, hc, ih hcs]

theorem split1_hyphen (pre post : String) (h : '-' ∉ pre.data) :
    split1 (pre ++ "-" ++ post) = (pre, some post) := by
  unfold split1
  have hd : (pre ++ "-" ++ post).data = pre.data ++ '-' :: post.data := by
    simp [String.data_append]
  rw [hd, splitFirstHyphen_append _ _ h]

/-- C3: with approach "auto", resolution splits the request's model
string at the first hyphen only; the strategy name is the part before
the first hyphen and the model is the entire remainder, so
"mcts-gpt-4o-mini" resolves to ("mcts", "gpt-4o-mini"). -/
theorem C3_auto_splits_on_first_hyphen (pre post : String) (h : '-' ∉ pre.data) :
    resolve "auto" (pre ++ "-" ++ post) = .ok (pre, post) ∧
    resolve "auto" "mcts-gpt-4o-mini" = .ok ("mcts", "gpt-4o-mini") := by
  constructor
  · unfold resolve
    rw [if_pos rfl, split1_hyphen pre post h]
  · rfl

theorem C3_witness : '-' ∉ "mcts".data ∧
    (resolve "auto" ("mcts" ++ "-" ++ "gpt-4o-mini") = .ok ("mcts", "gpt-4o-mini") ∧
     resolve "auto" "mcts-gpt-4o-mini" = .ok ("mcts", "gpt-4o-mini")) :=
  ⟨by decide, C3_auto_splits_on_first_hyphen "mcts" "gpt-4o-mini" (by decide)⟩

/-- C4: when the configured approach is not "auto", the resolved
strategy name is the configured approach and the resolved model is the
request's model verbatim; the configured default model is used only
when the request omits a model. -/
theorem C4_non_auto_resolution (cfg : ServerConfig) (data : ChatRequest)
    (h : cfg.approach ≠ "auto") :
    resolve cfg.approach (requestModel cfg data)
      = .ok (cfg.approach, requestModel cfg data) ∧
    (∀ m, data.model = some m → requestModel cfg data = m) ∧
    (data.model = none → requestModel cfg data = cfg.model) := by
  refine ⟨?_, ?_, ?_⟩
  · unfold resolve
    rw [if_neg h]
  · intro m hm
    simp [requestModel, hm]
  · intro hm
    simp [requestModel, hm]

theorem C4_witness :
    ({ cfgBase with approach := "bon" } : ServerConfig).approach ≠ "auto" ∧
    (resolve ({ cfgBase with approach := "bon" } : ServerConfig).approach
        (requestModel { cfgBase with approach := "bon" } ⟨none, some "gpt-4o", none⟩)
      = .ok (({ cfgBase with approach := "bon" } : ServerConfig).approach,
             requestModel { cfgBase with approach := "bon" } ⟨none, some "gpt-4o", none⟩) ∧
     (∀ m, (⟨none, some "gpt-4o", none⟩ : ChatRequest).model = some m →
        requestModel { cfgBase with approach := "bon" } ⟨none, some "gpt-4o", none⟩ = m) ∧
     ((⟨none, some "gpt-4o", none⟩ : ChatRequest).model = none →
        requestModel { cfgBase with approach := "bon" } ⟨none, some "gpt-4o", none⟩ = cfgBase.model)) :=
  ⟨by decide, C4_non_auto_resolution { cfgBase with approach := "bon" } ⟨none, some "gpt-4o", none⟩ (by decide)⟩

/-- C8: handling a request never mutates the server configuration: the
configuration coming out of the handler is the one that went in, on
every path (success, caught failure, uncaught failure). -/
theorem C8_config_never_mutated (cfg : ServerConfig) (apiKey : Option String)
    (strats : Strategies) (data : ChatRequest) :
    (proxy cfg apiKey strats data).2 = cfg := by
  unfold proxy
  split
  · rfl
  · split
    · rfl
    · rfl

theorem proxy_uncaught (cfg : ServerConfig) (apiKey : Option String)
    (strats : Strategies) (data : ChatRequest) (e : Exc)
    (hres : resolve cfg.approach (requestModel cfg data) = .error e) :
    proxy cfg apiKey strats data = (.uncaught e, cfg) := by
  simp [proxy, hres]

theorem proxy_caught (cfg : ServerConfig) (apiKey : Option String)
    (strats : Strategies) (data : ChatRequest) (apr m msg : String)
    (hres : resolve cfg.approach (requestModel cfg data) = .ok (apr, m))
    (hd : dispatch cfg strats apr (systemPrompt (getMessages data))
        (initialQuery (getMessages data)) (selectClient apiKey cfg.base_url) m
        (requestN cfg data) = .error msg) :
    proxy cfg apiKey strats data = (.response 500 (.error msg), cfg) := by
  simp [proxy, hres, hd]

theorem proxy_success (cfg : ServerConfig) (apiKey : Option String)
    (strats : Strategies) (data : ChatRequest) (apr m : String) (r : StrategyResult)
    (hres : resolve cfg.approach (requestModel cfg data) = .ok (apr, m))
    (hd : dispatch cfg strats apr (systemPrompt (getMessages data))
        (initialQuery (getMessages data)) (selectClient apiKey cfg.base_url) m
        (requestN cfg data) = .ok r) :
    proxy cfg apiKey strats data = (.response 200 (.success (assemble m r)), cfg) := by
  simp [proxy, hres, hd]

/-- C2 counterexample: with approach "auto" and a model string with no
hyphen, the handler does not surface the failure through the error
boundary — the `IndexError` from `parts[1]` is raised before the
try/except block and escapes the handler uncaught, so the result is not
an HTTP response produced by the handler at all (in particular not a
JSON 500 error body). -/
theorem C2_counterexample :
    (proxy cfgBase none stratsStub ⟨none, some "gpt4o", none⟩).1
      = HandlerResult.uncaught Exc.indexError := rfl

/-- C2 (amended): with approach "auto" and a model string with no
hyphen, resolution fails (the split yields a single part and `parts[1]`
raises `IndexError`), but the failure happens before the try/except
error boundary and escapes the request handler uncaught instead of
being converted into a JSON 500 response. -/
theorem C2_auto_no_hyphen_escapes_uncaught (cfg : ServerConfig)
    (apiKey : Option String) (strats : Strategies) (data : ChatRequest)
    (hauto : cfg.approach = "auto")
    (hnone : (split1 (requestModel cfg data)).2 = none) :
    (proxy cfg apiKey strats data).1 = HandlerResult.uncaught Exc.indexError := by
  have hres : resolve cfg.approach (requestModel cfg data) = .error .indexError := by
    unfold resolve
    rw [hauto, if_pos rfl]
    rcases hs : split1 (requestModel cfg data) with ⟨p, opost⟩
    rw [hs] at hnone
    simp only at hnone
    subst hnone
    rfl
  unfold proxy
  rw [hres]

theorem C2_witness :
    cfgBase.approach = "auto" ∧
    (split1 (requestModel cfgBase ⟨none, some "gpt4omini", none⟩)).2 = none ∧
    (proxy cfgBase none stratsStub ⟨none, some "gpt4omini", none⟩).1
      = HandlerResult.uncaught Exc.indexError :=
  ⟨rfl, rfl,
   C2_auto_no_hyphen_escapes_uncaught cfgBase none stratsStub
     ⟨none, some "gpt4omini", none⟩ rfl rfl⟩

/-- C1 counterexample: not every failure kind is caught by the error
boundary — a malformed model field in auto mode (no hyphen) makes the
handler terminate without any JSON response: the request yields an
uncaught `IndexError`, not a 500 response with a JSON error body. -/
theorem C1_counterexample :
    (proxy cfgBase none stratsStub ⟨none, some "gpt4", none⟩).1
      = HandlerResult.uncaught Exc.indexError := rfl

/-- C1 (amended): the caller receives a JSON body only when resolution
does not raise: whenever auto-mode resolution does not fail (the only
pre-try failure in the embedded handler), the request produces an HTTP
response that is either a 200 with the success schema or a 500 with the
`{"error": ...}` schema; failures inside the try block (unknown
approach, strategy execution failure) are caught and surfaced as 500
JSON errors, but an auto-mode split failure escapes uncaught. -/
theorem C1_json_response_when_resolution_succeeds (cfg : ServerConfig)
    (apiKey : Option String) (strats : Strategies) (data : ChatRequest)
    (h : resolve cfg.approach (requestModel cfg data) ≠ .error .indexError) :
    ∃ st b, (proxy cfg apiKey strats data).1 = HandlerResult.response st b ∧
      ((st = 200 ∧ ∃ r, b = Body.success r) ∨ (st = 500 ∧ ∃ m, b = Body.error m)) := by
  cases hres : resolve cfg.approach (requestModel cfg data) with
  | error e =>
    cases e
    exact absurd hres h
  | ok p =>
    obtain ⟨apr, m⟩ := p
    cases hd : dispatch cfg strats apr (systemPrompt (getMessages data))
        (initialQuery (getMessages data)) (selectClient apiKey cfg.base_url) m
        (requestN cfg data) with
    | error e =>
      rw [proxy_caught cfg apiKey strats data apr m e hres hd]
      exact ⟨500, Body.error e, rfl, Or.inr ⟨rfl, e, rfl⟩⟩
    | ok r =>
      rw [proxy_success cfg apiKey strats data apr m r hres hd]
      exact ⟨200, Body.success (assemble m r), rfl, Or.inl ⟨rfl, assemble m r, rfl⟩⟩

theorem C1_witness :
    resolve cfgBase.approach (requestModel cfgBase ⟨none, some "bon-gpt-4o", none⟩)
      ≠ .error .indexError ∧
    ∃ st b, (proxy cfgBase none stratsStub ⟨none, some "bon-gpt-4o", none⟩).1
        = HandlerResult.response st b ∧
      ((st = 200 ∧ ∃ r, b = Body.success r) ∨ (st = 500 ∧ ∃ m, b = Body.error m)) := by
  have hne : resolve cfgBase.approach (requestModel cfgBase ⟨none, some "bon-gpt-4o", none⟩)
      ≠ .error .indexError := fun h => Except.noConfusion h
  exact ⟨hne, C1_json_response_when_resolution_succeeds cfgBase none stratsStub
    ⟨none, some "bon-gpt-4o", none⟩ hne⟩

theorem find?_role_append (r : String) (pre post : List Message) (msg : Message)
    (h : ∀ m ∈ pre, m.role ≠ r) (hm : msg.role = r) :
    (pre ++ msg :: post).find? (fun m => m.role = r) = some msg := by
  induction pre with
  | nil => simp [List.find?, hm]
  | cons a as ih =>
    have ha : a.role ≠ r := h a (List.mem_cons_self _ _)
    have has : ∀ m ∈ as, m.role ≠ r := fun m hm' => h m (List.mem_cons_of_mem _ hm')
    simp only [List.cons_append, List.find?]
    simp [ha, ih has]

/-- C5: the extracted system prompt is the content of the first message
with role "system" (empty string when none exists), the extracted user
query is the content of the first message with role "user" (empty
string when none exists), later messages of the same role are ignored,
and a payload without a `messages` key is treated as an empty message
sequence, yielding empty strings for both. -/
theorem C5_first_system_and_user_message (data : ChatRequest)
    (pre post l : List Message) (msg : Message) :
    (data.messages = none →
      systemPrompt (getMessages data) = "" ∧ initialQuery (getMessages data) = "") ∧
    ((∀ m ∈ pre, m.role ≠ "system") → msg.role = "system" →
      systemPrompt (pre ++ msg :: post) = msg.content) ∧
    ((∀ m ∈ l, m.role ≠ "system") → systemPrompt l = "") ∧
    ((∀ m ∈ pre, m.role ≠ "user") → msg.role = "user" →
      initialQuery (pre ++ msg :: post) = msg.content) ∧
    ((∀ m ∈ l, m.role ≠ "user") → initialQuery l = "") := by
  refine ⟨?_, ?_, ?_, ?_, ?_⟩
  · intro h
    simp [getMessages, h, systemPrompt, initialQuery]
  · intro h hm
    unfold systemPrompt
    rw [find?_role_append "system" pre post msg h hm]
    rfl
  · intro h
    unfold systemPrompt
    rw [List.find?_eq_none.mpr (by simpa using h)]
    rfl
  · intro h hm
    unfold initialQuery
    rw [find?_role_append "user" pre post msg h hm]
    rfl
  · intro h
    unfold initialQuery
    rw [List.find?_eq_none.mpr (by simpa using h)]
    rfl

theorem C5_witness :
    systemPrompt ([⟨"user", "q"⟩] ++ ⟨"system", "s1"⟩ :: [⟨"system", "s2"⟩]) = "s1" ∧
    initialQuery ([⟨"system", "s1"⟩] ++ ⟨"user", "u1"⟩ :: [⟨"user", "u2"⟩]) = "u1" ∧
    systemPrompt (getMessages ⟨none, none, none⟩) = "" ∧
    initialQuery (getMessages ⟨none, none, none⟩) = "" ∧
    systemPrompt [⟨"user", "q"⟩] = "" := by
  refine ⟨?_, ?_, ?_, ?_, ?_⟩
  · exact (C5_first_system_and_user_message ⟨none, none, none⟩ [⟨"user", "q"⟩]
      [⟨"system", "s2"⟩] [] ⟨"system", "s1"⟩).2.1 (by decide) rfl
  · exact (C5_first_system_and_user_message ⟨none, none, none⟩ [⟨"system", "s1"⟩]
      [⟨"user", "u2"⟩] [] ⟨"user", "u1"⟩).2.2.2.1 (by decide) rfl
  · exact ((C5_first_system_and_user_message ⟨none, none, none⟩ [] [] [] ⟨"", ""⟩).1 rfl).1
  · exact ((C5_first_system_and_user_message ⟨none, none, none⟩ [] [] [] ⟨"", ""⟩).1 rfl).2
  · exact (C5_first_system_and_user_message ⟨none, none, none⟩ [] []
      [⟨"user", "q"⟩] ⟨"", ""⟩).2.2.1 (by decide)

theorem assemble_model_eq (m : String) (r : StrategyResult) :
    (assemble m r).model = m := by
  cases r <;> rfl

/-- C6: the assembled response has, for a single-string result, exactly
one choice at index 0 with that string as content; for a list result,
one choice per element with indices 0,1,2,… in list order and the list
elements as contents; and every choice carries role "assistant" and
finish_reason "stop".  In particular ["a","b","c"] yields three choices
with indices 0,1,2 and contents "a","b","c" in that order. -/
theorem C6_response_assembly (model s : String) (l : List String) (i : Nat) :
    assemble model (.single s)
      = { model := model,
          choices := [{ index := 0, role := "assistant", content := s,
                        finish_reason := "stop" }] } ∧
    (assemble model (.many l)).choices.length = l.length ∧
    (i < l.length →
      (assemble model (.many l)).choices.getD i ⟨0, "", "", ""⟩
        = { index := i, role := "assistant", content := l.getD i "",
            finish_reason := "stop" }) ∧
    (assemble model (.many ["a", "b", "c"])).choices
      = [⟨0, "assistant", "a", "stop"⟩, ⟨1, "assistant", "b", "stop"⟩,
         ⟨2, "assistant", "c", "stop"⟩] := by
  refine ⟨rfl, ?_, ?_, rfl⟩
  · simp [assemble]
  · intro hi
    simp only [assemble]
    rw [List.getD_eq_get?, List.get?_map, List.enum_get?, List.getD_eq_get?]
    cases hg : l.get? i with
    | none =>
      have := List.get?_eq_none.mp hg
      omega
    | some a => simp

theorem C6_witness :
    1 < (["a", "b", "c"] : List String).length ∧
    (assemble "m" (.many ["a", "b", "c"])).choices.getD 1 ⟨0, "", "", ""⟩
      = { index := 1, role := "assistant", content := (["a", "b", "c"] : List String).getD 1 "",
          finish_reason := "stop" } :=
  ⟨by decide, (C6_response_assembly "m" "s" ["a", "b", "c"] 1).2.2.1 (by decide)⟩

/-- C7: when the resolved strategy name is not one of the registered
approaches, no strategy is invoked (the dispatch chain falls through to
the `raise` without touching any strategy, so the result does not
depend on the strategy implementations) and the HTTP response is a 500
with body `{"error": "Unknown approach: <name>"}`. -/
theorem C7_unknown_approach_500 (cfg : ServerConfig) (apiKey : Option String)
    (strats : Strategies) (data : ChatRequest) (apr m : String)
    (hres : resolve cfg.approach (requestModel cfg data) = .ok (apr, m))
    (hout : apr ∉ knownApproaches) :
    (proxy cfg apiKey strats data).1
      = HandlerResult.response 500 (Body.error ("Unknown approach: " ++ apr)) := by
  simp only [knownApproaches, List.mem_cons, List.not_mem_nil, or_false, not_or] at hout
  obtain ⟨h1, h2, h3, h4, h5, h6, h7, h8, h9, h10⟩ := hout
  have hd : dispatch cfg strats apr (systemPrompt (getMessages data))
      (initialQuery (getMessages data)) (selectClient apiKey cfg.base_url) m
      (requestN cfg data) = .error ("Unknown approach: " ++ apr) := by
    unfold dispatch
    rw [if_neg h1, if_neg h2, if_neg h3, if_neg h4, if_neg h5, if_neg h6,
        if_neg h7, if_neg h8, if_neg h9, if_neg h10]
  rw [proxy_caught cfg apiKey strats data apr m _ hres hd]

theorem C7_witness :
    resolve ({ cfgBase with approach := "foo" } : ServerConfig).approach
        (requestModel { cfgBase with approach := "foo" } ⟨none, some "gpt-4o", none⟩)
      = .ok ("foo", "gpt-4o") ∧
    "foo" ∉ knownApproaches ∧
    (proxy { cfgBase with approach := "foo" } none stratsStub ⟨none, some "gpt-4o", none⟩).1
      = HandlerResult.response 500 (Body.error ("Unknown approach: " ++ "foo")) :=
  ⟨rfl, by decide,
   C7_unknown_approach_500 { cfgBase with approach := "foo" } none stratsStub
     ⟨none, some "gpt-4o", none⟩ "foo" "gpt-4o" rfl (by decide)⟩

set_option maxHeartbeats 2000000 in
theorem dispatch_client_agree (cfg : ServerConfig) (strats strats2 : Strategies)
    (apr sp iq : String) (client : Client) (m : String) (nn : Nat)
    (hagree : StratsAgreeAt client strats strats2) :
    dispatch cfg strats apr sp iq client m nn
      = dispatch cfg strats2 apr sp iq client m nn := by
  obtain ⟨h1, h2, h3, h4, h5, h6, h7, h8, h9, h10⟩ := hagree
  unfold dispatch
  split_ifs
  · exact h1 _ _ _ _ _ _
  · exact h2 _ _ _ _
  · exact h3 _ _ _
  · exact h4 _ _ _
  · exact h5 _ _ _
  · exact h6 _ _ _
  · exact h7 _ _ _
  · exact h8 _ _ _ _ _ _
  · exact h9 _ _ _ _
  · exact h10 _ _ _ _
  · rfl

/-- C9: for every request, the backend client is selected from the
configuration — a non-empty configured base_url yields a client bound
to that endpoint, an empty one the default client bound to the startup
credential — and every strategy invocation the handler performs uses
exactly that selected client: the handler's outcome is unchanged when
the strategy pack is replaced by any pack that agrees with it at the
selected client (so no strategy is ever invoked with any other
client). -/
theorem C9_backend_client_selection (cfg : ServerConfig) (apiKey : Option String)
    (strats strats2 : Strategies) (data : ChatRequest)
    (hagree : StratsAgreeAt (selectClient apiKey cfg.base_url) strats strats2) :
    (cfg.base_url ≠ "" →
      selectClient apiKey cfg.base_url
        = { api_key := apiKey, base_url := some cfg.base_url }) ∧
    (cfg.base_url = "" → selectClient apiKey cfg.base_url = defaultClient apiKey) ∧
    proxy cfg apiKey strats data = proxy cfg apiKey strats2 data := by
  refine ⟨fun hne => by simp [selectClient, hne], fun he => by simp [selectClient, he], ?_⟩
  cases hres : resolve cfg.approach (requestModel cfg data) with
  | error e =>
    rw [proxy_uncaught cfg apiKey strats data e hres,
        proxy_uncaught cfg apiKey strats2 data e hres]
  | ok p =>
    obtain ⟨apr, m⟩ := p
    have hd := dispatch_client_agree cfg strats strats2 apr (systemPrompt (getMessages data))
      (initialQuery (getMessages data)) (selectClient apiKey cfg.base_url) m
      (requestN cfg data) hagree
    cases hd2 : dispatch cfg strats2 apr (systemPrompt (getMessages data))
        (initialQuery (getMessages data)) (selectClient apiKey cfg.base_url) m
        (requestN cfg data) with
    | error e =>
      rw [proxy_caught cfg apiKey strats data apr m e hres (hd.trans hd2),
          proxy_caught cfg apiKey strats2 data apr m e hres hd2]
    | ok r =>
      rw [proxy_success cfg apiKey strats data apr m r hres (hd.trans hd2),
          proxy_success cfg apiKey strats2 data apr m r hres hd2]

theorem C9_witness :
    StratsAgreeAt (selectClient (some "k") cfgW9.base_url) stratsStub stratsProbe ∧
    ((cfgW9.base_url ≠ "" →
        selectClient (some "k") cfgW9.base_url
          = { api_key := some "k", base_url := some cfgW9.base_url }) ∧
     (cfgW9.base_url = "" →
        selectClient (some "k") cfgW9.base_url = defaultClient (some "k")) ∧
     proxy cfgW9 (some "k") stratsStub ⟨none, some "gpt-4o", none⟩
       = proxy cfgW9 (some "k") stratsProbe ⟨none, some "gpt-4o", none⟩) := by
  have hagree : StratsAgreeAt (selectClient (some "k") cfgW9.base_url) stratsStub stratsProbe := by
    unfold StratsAgreeAt
    refine ⟨?_, ?_, ?_, ?_, ?_, ?_, ?_, ?_, ?_, ?_⟩ <;> (intros; rfl)
  exact ⟨hagree, C9_backend_client_selection cfgW9 (some "k") stratsStub stratsProbe
    ⟨none, some "gpt-4o", none⟩ hagree⟩

/-- C10: the model field of a successful response is the resolved
model: in auto mode it is the remainder of the request's model string
after the first hyphen (not the string the caller sent); the inbound
model value is echoed back verbatim only when auto mode is off. -/
theorem C10_success_model_field (cfg : ServerConfig) (apiKey : Option String)
    (strats : Strategies) (data : ChatRequest) (pre post : String)
    (resp : ChatResponse) :
    (cfg.approach = "auto" → split1 (requestModel cfg data) = (pre, some post) →
      (proxy cfg apiKey strats data).1 = HandlerResult.response 200 (Body.success resp) →
      resp.model = post) ∧
    (cfg.approach ≠ "auto" →
      (proxy cfg apiKey strats data).1 = HandlerResult.response 200 (Body.success resp) →
      resp.model = requestModel cfg data) := by
  constructor
  · intro hauto hsplit hr
    have hres : resolve cfg.approach (requestModel cfg data) = .ok (pre, post) := by
      unfold resolve
      rw [hauto, if_pos rfl, hsplit]
    cases hd : dispatch cfg strats pre (systemPrompt (getMessages data))
        (initialQuery (getMessages data)) (selectClient apiKey cfg.base_url) post
        (requestN cfg data) with
    | error e =>
      rw [proxy_caught cfg apiKey strats data pre post e hres hd] at hr
      exact absurd hr (by simp)
    | ok r =>
      rw [proxy_success cfg apiKey strats data pre post r hres hd] at hr
      simp only [HandlerResult.response.injEq, Body.success.injEq, true_and] at hr
      rw [← hr, assemble_model_eq]
  · intro hne hr
    have hres : resolve cfg.approach (requestModel cfg data)
        = .ok (cfg.approach, requestModel cfg data) := by
      unfold resolve
      rw [if_neg hne]
    cases hd : dispatch cfg strats cfg.approach (systemPrompt (getMessages data))
        (initialQuery (getMessages data)) (selectClient apiKey cfg.base_url)
        (requestModel cfg data) (requestN cfg data) with
    | error e =>
      rw [proxy_caught cfg apiKey strats data cfg.approach (requestModel cfg data) e hres hd] at hr
      exact absurd hr (by simp)
    | ok r =>
      rw [proxy_success cfg apiKey strats data cfg.approach (requestModel cfg data) r hres hd] at hr
      simp only [HandlerResult.response.injEq, Body.success.injEq, true_and] at hr
      rw [← hr, assemble_model_eq]

theorem C10_witness :
    cfgBase.approach = "auto" ∧
    split1 (requestModel cfgBase ⟨none, some "bon-m1", none⟩) = ("bon", some "m1") ∧
    (proxy cfgBase none stratsStub ⟨none, some "bon-m1", none⟩).1
      = HandlerResult.response 200 (Body.success ⟨"m1", [⟨0, "assistant", "ok", "stop"⟩]⟩) ∧
    (⟨"m1", [⟨0, "assistant", "ok", "stop"⟩]⟩ : ChatResponse).model = "m1" :=
  ⟨rfl, rfl, rfl,
   (C10_success_model_field cfgBase none stratsStub ⟨none, some "bon-m1", none⟩ "bon" "m1"
     ⟨"m1", [⟨0, "assistant", "ok", "stop"⟩]⟩).1 rfl rfl rfl⟩
